import Mathlib

/-!
Verification of the code-generation orchestrator of `Data_Analyst_Agent_v3`
against its natural-language specification.

The Python sources are shallowly embedded:

* `src/plan_execution.py` — `execute_plan_v1`, `_run_and_validate_json`,
  `_build_repair_prompt`;
* `src/llm_calls/new_gemini_llm.py` — `gemini_call_for_code`,
  `_extract_code`, `_should_retry`, the prompt-keyed code cache;
* `src/llm_calls/claude_call.py` / `openai_call.py` — treated as opaque
  fallible backends by the orchestrator model.

External effects (network replies, the behaviour of the spawned child
process, the text of `json.JSONDecodeError`) are oracles passed in as
explicit arguments; everything else is translated from the source.
-/

namespace DataAnalystAgent

/-- Characters of Python's `\s` class / `str.strip()` default set
(ASCII portion): space, tab, newline, carriage return, vertical tab,
form feed. -/
def isPyWs (c : Char) : Bool :=
  c = ' ' || c = '\t' || c = '\n' || c = '\r' || c = '\x0b' || c = '\x0c'

/-- Python `str.strip()` on a character list: drop leading and trailing
whitespace. -/
def pyStripList (cs : List Char) : List Char :=
  ((cs.dropWhile isPyWs).reverse.dropWhile isPyWs).reverse

/-- Python `str.strip()`. -/
def pyStrip (s : String) : String :=
  ⟨pyStripList s.data⟩

/-! ## A model of Python `json.loads` acceptance

`_run_and_validate_json` calls `json.loads(stdout)` only to check that the
stripped stdout is one well-formed JSON document.  `jsonValid` is a
recursive-descent recogniser for the grammar Python's `json` module accepts
by default: one JSON value (`object | array | string | number | true |
false | null`, plus the Python extensions `NaN`, `Infinity`, `-Infinity`),
with `[ \t\n\r]*` whitespace around tokens and nothing after the value. -/

/-- JSON inter-token whitespace (`json.decoder.WHITESPACE`). -/
def jWs (c : Char) : Bool :=
  c = ' ' || c = '\t' || c = '\n' || c = '\r'

/-- Skip JSON whitespace. -/
def jSkip (cs : List Char) : List Char :=
  cs.dropWhile jWs

/-- Hexadecimal digit (for `\uXXXX` escapes). -/
def isHexDigit (c : Char) : Bool :=
  c.isDigit || ('a' ≤ c && c ≤ 'f') || ('A' ≤ c && c ≤ 'F')

/-- Recognise the rest of a JSON string after the opening quote; returns the
input remaining after the closing quote.  Escapes: `\" \\ \/ \b \f \n \r \t`
and `\uXXXX`; unescaped control characters are rejected (`strict=True`). -/
def parseJString : Nat → List Char → Option (List Char)
  | 0, _ => none
  | _ + 1, [] => none
  | fuel + 1, c :: rest =>
    if c = '"' then some rest
    else if c = '\\' then
      match rest with
      | [] => none
      | e :: rest2 =>
        if e = '"' || e = '\\' || e = '/' || e = 'b' || e = 'f' ||
            e = 'n' || e = 'r' || e = 't' then
          parseJString fuel rest2
        else if e = 'u' then
          match rest2 with
          | a :: b :: c2 :: d :: rest3 =>
            if isHexDigit a && isHexDigit b && isHexDigit c2 && isHexDigit d then
              parseJString fuel rest3
            else none
          | _ => none
        else none
    else if c.toNat < 32 then none
    else parseJString fuel rest

/-- Recognise a JSON number at the head of the input:
`-? (0 | [1-9][0-9]*) (\. [0-9]+)? ([eE] [+-]? [0-9]+)?`. -/
def parseJNumber (cs : List Char) : Option (List Char) :=
  let afterSign := match cs with
    | '-' :: rest => some rest
    | _ => some cs
  match afterSign with
  | none => none
  | some cs1 =>
    let afterInt : Option (List Char) :=
      match cs1 with
      | '0' :: rest => some rest
      | c :: rest => if c.isDigit then some (rest.dropWhile Char.isDigit) else none
      | [] => none
    match afterInt with
    | none => none
    | some cs2 =>
      let afterFrac : Option (List Char) :=
        match cs2 with
        | '.' :: c :: rest =>
          if c.isDigit then some (rest.dropWhile Char.isDigit) else none
        | '.' :: [] => none
        | _ => some cs2
      match afterFrac with
      | none => none
      | some cs3 =>
        match cs3 with
        | 'e' :: rest | 'E' :: rest =>
          let rest2 := match rest with
            | '+' :: r => r
            | '-' :: r => r
            | r => r
          match rest2 with
          | c :: r => if c.isDigit then some (r.dropWhile Char.isDigit) else none
          | [] => none
        | _ => some cs3

mutual

/-- Recognise one JSON value at the head of the input. -/
def parseJValue : Nat → List Char → Option (List Char)
  | 0, _ => none
  | fuel + 1, cs =>
    match cs with
    | 't' :: 'r' :: 'u' :: 'e' :: rest => some rest
    | 'f' :: 'a' :: 'l' :: 's' :: 'e' :: rest => some rest
    | 'n' :: 'u' :: 'l' :: 'l' :: rest => some rest
    | 'N' :: 'a' :: 'N' :: rest => some rest
    | 'I' :: 'n' :: 'f' :: 'i' :: 'n' :: 'i' :: 't' :: 'y' :: rest => some rest
    | '-' :: 'I' :: 'n' :: 'f' :: 'i' :: 'n' :: 'i' :: 't' :: 'y' :: rest => some rest
    | '"' :: rest => parseJString (fuel + 1) rest
    | '[' :: rest => parseJArray fuel (jSkip rest)
    | '{' :: rest => parseJObject fuel (jSkip rest)
    | _ => parseJNumber cs

/-- Recognise the inside of a JSON array (whitespace already skipped,
positioned after `[` or after a `,`).  A `,` must be followed by another
value: `json.loads` rejects a trailing comma (`"[1,]"`). -/
def parseJArray : Nat → List Char → Option (List Char)
  | 0, _ => none
  | fuel + 1, cs =>
    match cs with
    | ']' :: rest => some rest
    | _ =>
      match parseJValue fuel cs with
      | none => none
      | some rest =>
        match jSkip rest with
        | ',' :: rest2 =>
          match jSkip rest2 with
          | ']' :: _ => none
          | rest3 => parseJArray fuel rest3
        | ']' :: rest2 => some rest2
        | _ => none

/-- Recognise the inside of a JSON object (whitespace already skipped,
positioned after `{` or after a `,`). -/
def parseJObject : Nat → List Char → Option (List Char)
  | 0, _ => none
  | fuel + 1, cs =>
    match cs with
    | '}' :: rest => some rest
    | '"' :: rest =>
      match parseJString fuel rest with
      | none => none
      | some rest2 =>
        match jSkip rest2 with
        | ':' :: rest3 =>
          match parseJValue fuel (jSkip rest3) with
          | none => none
          | some rest4 =>
            match jSkip rest4 with
            | ',' :: rest5 =>
              match jSkip rest5 with
              | '}' :: _ => none
              | rest6 => parseJObject fuel rest6
            | '}' :: rest5 => some rest5
            | _ => none
        | _ => none
    | _ => none

end

/-- `json.loads(s)` succeeds: optional whitespace, exactly one JSON value,
optional whitespace, end of input. -/
def jsonValid (s : String) : Bool :=
  match parseJValue (2 * s.length + 8) (jSkip s.data) with
  | some rest => jSkip rest = []
  | none => false

example : jsonValid "\x7b\"a\": 1\x7d" = true := by decide
example : jsonValid "42\nextra text" = false := by decide
example : jsonValid "" = false := by decide
example : jsonValid "1" = true := by decide
example : jsonValid "[1, 2, \x7b\"x\": null\x7d]" = true := by decide
example : jsonValid "[1, 2" = false := by decide
example : jsonValid "-1.5e3" = true := by decide
example : jsonValid "00" = false := by decide
example : jsonValid "[1,]" = false := by decide
example : jsonValid "[1, 2,]" = false := by decide
example : jsonValid "[1 , 2]" = true := by decide
example : jsonValid "\x7b\"a\": 1,\x7d" = false := by decide

/-! ## Sandboxed Executor and Output Validator

`_run_and_validate_json` (src/plan_execution.py, lines 127-176): write the
code to a transient file, spawn a child interpreter, then validate the
captured streams.  The child's behaviour and the `json.JSONDecodeError`
message are external, so they are passed in as oracles. -/

/-- The captured result of the completed child process
(`proc.returncode`, `proc.stdout`, `proc.stderr`). -/
structure ProcResult where
  returncode : Int
  stdout : String
  stderr : String
  deriving DecidableEq, Repr

/-- The generic message used when the child exits non-zero with empty
stderr. -/
def nonZeroExitMsg : String := "Script exited with non-zero status."

/-- The error text of the invalid-JSON branch:
`f"Invalid JSON output: {je}\nSTDOUT:\n{stdout}\nSTDERR:\n{stderr}"`,
where `jeMsg stdout` is the oracle for `str(je)`. -/
def invalidJsonMsg (jeMsg : String → String) (stdout stderr : String) : String :=
  "Invalid JSON output: " ++ jeMsg stdout ++ "\nSTDOUT:\n" ++ stdout ++
    "\nSTDERR:\n" ++ stderr

/-- The validation tail of `_run_and_validate_json` (lines 156-168):
strip both streams, fail on non-zero exit with the stripped stderr (or a
generic message when it is empty), else accept iff the stripped stdout is
one valid JSON document. -/
def validateOutput (jeMsg : String → String) (p : ProcResult) :
    Bool × String × Option String :=
  let stdout := pyStrip p.stdout
  let stderr := pyStrip p.stderr
  if p.returncode ≠ 0 then
    (false, stdout, some (if stderr = "" then nonZeroExitMsg else stderr))
  else if jsonValid stdout then
    (true, stdout, none)
  else
    (false, stdout, some (invalidJsonMsg jeMsg stdout stderr))

/-- The argument record of the `subprocess.run` call in
`_run_and_validate_json` (lines 148-154).  The source passes
`[sys.executable, "-X", "utf8", code_path]` with captured streams and **no
`timeout` keyword**, so the supervision layer is given no wall-clock bound
(`subprocess.run` defaults to `timeout=None`). -/
structure SubprocessInvocation where
  argv : List String
  captureStdout : Bool
  captureStderr : Bool
  textMode : Bool
  timeout : Option Nat
  deriving DecidableEq, Repr

/-- The invocation `_run_and_validate_json` builds for a given interpreter,
transient script path and `timeout_sec` argument. -/
def subprocessInvocation (pythonExe codePath : String) (_timeoutSec : Nat) :
    SubprocessInvocation :=
  { argv := [pythonExe, "-X", "utf8", codePath]
    captureStdout := true
    captureStderr := true
    textMode := true
    timeout := none }

/-- How the spawned child behaves: it completes with captured streams, the
supervision layer raises `subprocess.TimeoutExpired`, or `subprocess.run`
raises some other exception. -/
inductive ProcBehavior where
  | completes (p : ProcResult)
  | timesOut
  | raises
  deriving DecidableEq

/-- How `_run_and_validate_json` finishes: it returns a
`(ok, output, error)` triple, or an exception escapes it. -/
inductive RunExit where
  | ret (r : Bool × String × Option String)
  | raised
  deriving DecidableEq

/-- `_run_and_validate_json` with the filesystem as explicit state (a list
of existing paths).  The transient file is created first; the
`finally: os.remove(code_path)` runs on every exit path.  On
`subprocess.TimeoutExpired` the handler `return False, stdout, ...` reads
the local `stdout`, which is unassigned on that path, so the handler itself
raises `NameError`: that path exits by exception. -/
def runAndValidateJson (jeMsg : String → String) (_code : String)
    (_timeoutSec : Nat) (behavior : ProcBehavior) (fs : List String)
    (tmpPath : String) : RunExit × List String :=
  let fs1 := tmpPath :: fs
  let fsFinal := fs1.filter (fun p => p ≠ tmpPath)
  match behavior with
  | .completes p => (.ret (validateOutput jeMsg p), fsFinal)
  | .timesOut => (.raised, fsFinal)
  | .raises => (.raised, fsFinal)

/-! ## Provider Chain Orchestrator and repair loop

`execute_plan_v1` (src/plan_execution.py, lines 14-121).  Each backend call
(`claude_call_for_code`, `openai_call_for_code_responses`,
`gemini_call_for_code`) is wrapped in `try/except`; within the program the
calls return a string or raise, so a backend outcome is
`Except Unit String` (`.error` = the call raised, `.ok s` = it returned
`s`).  Python's falsiness test `if not code:` holds for an exception
(`code = None`) and for the empty string. -/

deriving instance DecidableEq for Except

/-- One backend outcome as seen by `execute_plan_v1`. -/
abbrev BackendOutcome := Except Unit String

/-- `not code` after a guarded backend call: the call raised (so `code`
was set to `None`) or returned an empty string. -/
def falsy : BackendOutcome → Bool
  | .error _ => true
  | .ok s => s == ""

/-- The three backend outcomes available to one generation step, in the
fixed priority order Claude, OpenAI, Gemini. -/
structure BackendTriple where
  claude : BackendOutcome
  openai : BackendOutcome
  gemini : BackendOutcome
  deriving DecidableEq

/-- What one pass over the fallback chain produced: the value of `code`
afterwards (`.error` iff the chain fell through to Gemini and Gemini
raised), and which fallback backends were invoked. -/
structure ChainOutcome where
  code : BackendOutcome
  openaiCalled : Bool
  geminiCalled : Bool
  deriving DecidableEq

/-- The fallback chain of `execute_plan_v1` (lines 33-57 for the initial
generation, 83-104 for each repair round): Claude first; OpenAI only if
`not code`; Gemini only if still `not code`. -/
def runChain (t : BackendTriple) : ChainOutcome :=
  if falsy t.claude = false then ⟨t.claude, false, false⟩
  else if falsy t.openai = false then ⟨t.openai, true, false⟩
  else ⟨t.gemini, true, true⟩

/-- Number of backend calls one pass over the chain issues. -/
def chainCalls (t : BackendTriple) : Nat :=
  1 + (if falsy t.claude then 1 else 0) +
    (if falsy t.claude && falsy t.openai then 1 else 0)

/-- The externally visible result of `execute_plan_v1`: the validated
output, the `{"error": "All LLMs failed to generate code"}` dictionary
(initial chain exhausted), or the final `return error` value when the
retry budget is spent. -/
inductive PlanOutcome where
  | success (output : String)
  | allLLMsFailed
  | failureText (err : Option String)
  deriving DecidableEq

/-- The retry loop of `execute_plan_v1` (lines 79-121), instrumented with
the running count of backend calls.  `gens round` is the backend triple a
chain pass in round `round` would observe; `execOf round code` the child
process result of executing `code` in that round.  A chain pass whose
Gemini leg raises does `continue` (keeping the previous `error`); a failed
validation replaces `error`; exhaustion returns `error`. -/
def executePlanLoop (jeMsg : String → String) (gens : Nat → BackendTriple)
    (execOf : Nat → String → ProcResult) :
    Nat → Nat → Option String → Nat → PlanOutcome × Nat
  | _, 0, err, calls => (.failureText err, calls)
  | round, r + 1, err, calls =>
    let t := gens round
    let calls2 := calls + chainCalls t
    match (runChain t).code with
    | .error _ => executePlanLoop jeMsg gens execOf (round + 1) r err calls2
    | .ok code =>
      let v := validateOutput jeMsg (execOf round code)
      if v.1 then (.success v.2.1, calls2)
      else executePlanLoop jeMsg gens execOf (round + 1) r v.2.2 calls2

/-- `execute_plan_v1` after prompt selection: initial chain pass, initial
execution and validation, then the retry loop with budget `maxRetries`.
Returns the outcome and the total number of backend calls. -/
def executePlanCore (jeMsg : String → String) (gens : Nat → BackendTriple)
    (execOf : Nat → String → ProcResult) (maxRetries : Nat) :
    PlanOutcome × Nat :=
  let t0 := gens 0
  match (runChain t0).code with
  | .error _ => (.allLLMsFailed, chainCalls t0)
  | .ok code =>
    let v := validateOutput jeMsg (execOf 0 code)
    if v.1 then (.success v.2.1, chainCalls t0)
    else executePlanLoop jeMsg gens execOf 1 maxRetries v.2.2 (chainCalls t0)

/-- Python `str.lower()` (ASCII model). -/
def pyLower (s : String) : String :=
  ⟨s.data.map Char.toLower⟩

/-- `pat` occurs as a contiguous substring of `l` (Python `in`). -/
def containsSubList (pat : List Char) : List Char → Bool
  | [] => pat.isEmpty
  | c :: rest => pat.isPrefixOf (c :: rest) || containsSubList pat rest

/-- Python `pat in s` for strings. -/
def containsSub (pat s : String) : Bool :=
  containsSubList pat.data s.data

/-- The S3 detection of `execute_plan_v1` (line 20):
`"s3://" in questions.lower() or "s3://" in json.dumps(plan).lower()`.
`planJson` is the JSON serialisation of the opaque plan value. -/
def s3Present (questions planJson : String) : Bool :=
  containsSub "s3://" (pyLower questions) || containsSub "s3://" (pyLower planJson)

/-- The repair budget `execute_plan_v1` actually uses: the S3 branch
(lines 21-24) overwrites the caller's `max_retries` with 8. -/
def effectiveMaxRetries (questions planJson : String) (maxRetries : Nat) : Nat :=
  if s3Present questions planJson then 8 else maxRetries

/-- `execute_plan_v1` including the S3 budget override. -/
def executePlanV1 (jeMsg : String → String) (gens : Nat → BackendTriple)
    (execOf : Nat → String → ProcResult) (questions planJson : String)
    (maxRetries : Nat) : PlanOutcome × Nat :=
  executePlanCore jeMsg gens execOf (effectiveMaxRetries questions planJson maxRetries)

/-- The value the `error` variable holds after the retry rounds
`round, round+1, …` have all been taken without returning: a round whose
chain pass raised (`continue`) keeps the previous error; a round whose code
was executed replaces it with that round's validation error.  This is the
"most recent error text" the exhausted loop returns. -/
def mostRecentError (jeMsg : String → String) (gens : Nat → BackendTriple)
    (execOf : Nat → String → ProcResult) : Nat → Nat → Option String →
    Option String
  | _, 0, err => err
  | round, r + 1, err =>
    match (runChain (gens round)).code with
    | .error _ => mostRecentError jeMsg gens execOf (round + 1) r err
    | .ok code =>
      mostRecentError jeMsg gens execOf (round + 1) r
        (validateOutput jeMsg (execOf round code)).2.2

/-- How `execute_plan_v1` itself finishes: with a returned value, or with
an exception escaping it to the caller. -/
inductive PlanExit where
  | ret (o : PlanOutcome)
  | raised
  deriving DecidableEq

/-- The retry loop of `execute_plan_v1` with the executor's exit made
explicit: `execB round code` is how the child process behaves in round
`round`.  The call `_run_and_validate_json(code, ...)` at lines 68 and 112
is **not** wrapped in any `try`, so when the executor exits by exception
(its only handler catches `subprocess.TimeoutExpired`) that exception
escapes `execute_plan_v1` itself.  The filesystem arguments of
`runAndValidateJson` do not affect its first component and are passed as
placeholders. -/
def executePlanLoopB (jeMsg : String → String) (gens : Nat → BackendTriple)
    (execB : Nat → String → ProcBehavior) (timeoutSec : Nat) :
    Nat → Nat → Option String → PlanExit
  | _, 0, err => .ret (.failureText err)
  | round, r + 1, err =>
    match (runChain (gens round)).code with
    | .error _ => executePlanLoopB jeMsg gens execB timeoutSec (round + 1) r err
    | .ok code =>
      match (runAndValidateJson jeMsg code timeoutSec (execB round code) [] "").1 with
      | .raised => .raised
      | .ret v =>
        if v.1 then .ret (.success v.2.1)
        else executePlanLoopB jeMsg gens execB timeoutSec (round + 1) r v.2.2

/-- `execute_plan_v1` (after prompt selection) with the executor's exit
made explicit. -/
def executePlanCoreB (jeMsg : String → String) (gens : Nat → BackendTriple)
    (execB : Nat → String → ProcBehavior) (timeoutSec : Nat)
    (maxRetries : Nat) : PlanExit :=
  match (runChain (gens 0)).code with
  | .error _ => .ret .allLLMsFailed
  | .ok code =>
    match (runAndValidateJson jeMsg code timeoutSec (execB 0 code) [] "").1 with
    | .raised => .raised
    | .ret v =>
      if v.1 then .ret (.success v.2.1)
      else executePlanLoopB jeMsg gens execB timeoutSec 1 maxRetries v.2.2

/-! ## Code Extractor

`_extract_code` (src/llm_calls/new_gemini_llm.py, lines 72-91).  The fence
scan embeds `re.findall` for the pattern
`` ```(?:python)?\s*([\s\S]*?)``` `` with `re.I`: at an opening triple
backtick, optionally consume a case-insensitive `python`, greedily consume
whitespace, then capture lazily up to the first closing triple backtick;
matches do not overlap.  The fallback embeds a scan for the first line on
which `_CODE_LIKE_LINE` matches (the pattern is anchored by `^\s*`, so
`.search` behaves as a match at the line start). -/

/-- Consume a case-insensitive literal `python` if present
(the `(?:python)?` group). -/
def dropPython (cs : List Char) : List Char :=
  match cs with
  | c1 :: c2 :: c3 :: c4 :: c5 :: c6 :: rest =>
    if c1.toLower = 'p' && c2.toLower = 'y' && c3.toLower = 't' &&
        c4.toLower = 'h' && c5.toLower = 'o' && c6.toLower = 'n' then rest
    else cs
  | _ => cs

/-- Lazily capture up to the first closing triple backtick; `none` when the
remaining input has no triple backtick (so no fenced match can complete). -/
def takeUntilFence : List Char → Option (List Char × List Char)
  | '`' :: '`' :: '`' :: rest => some ([], rest)
  | c :: cs => (takeUntilFence cs).map (fun p => (c :: p.1, p.2))
  | [] => none

/-- All captures of the fence pattern, left to right, non-overlapping
(`_CODE_BLOCK_RE.findall`). -/
def findBlocksAux : Nat → List Char → List (List Char)
  | 0, _ => []
  | _ + 1, [] => []
  | fuel + 1, '`' :: '`' :: '`' :: rest =>
    match takeUntilFence ((dropPython rest).dropWhile isPyWs) with
    | some (cap, rest2) => cap :: findBlocksAux fuel rest2
    | none => []
  | fuel + 1, _ :: cs => findBlocksAux fuel cs

/-- `_CODE_BLOCK_RE.findall text`. -/
def findBlocks (cs : List Char) : List (List Char) :=
  findBlocksAux cs.length cs

/-- Line-break characters of Python `str.splitlines` (`\r\n` handled as one
break before these single-character breaks). -/
def isLineBreak (c : Char) : Bool :=
  c = '\n' || c = '\r' || c = '\x0b' || c = '\x0c' || c = '\x1c' ||
    c = '\x1d' || c = '\x1e' || c = '\x85' || c = Char.ofNat 0x2028 || c = Char.ofNat 0x2029

/-- Python `str.splitlines`: every line break ends a line; a final segment
is a line only when non-empty. -/
def splitLinesAux (acc : List Char) : List Char → List (List Char)
  | [] => if acc.isEmpty then [] else [acc.reverse]
  | '\r' :: '\n' :: rest => acc.reverse :: splitLinesAux [] rest
  | c :: rest =>
    if isLineBreak c then acc.reverse :: splitLinesAux [] rest
    else splitLinesAux (c :: acc) rest

/-- Python `str.splitlines` on a character list. -/
def splitLines (cs : List Char) : List (List Char) :=
  splitLinesAux [] cs

/-- A character of Python's `\w` class (ASCII model). -/
def isWordChar (c : Char) : Bool :=
  c.isAlphanum || c = '_'

/-- Consume an exact literal prefix. -/
def dropLit : List Char → List Char → Option (List Char)
  | [], cs => some cs
  | k :: ks, c :: cs => if c = k then dropLit ks cs else none
  | _ :: _, [] => none

/-- After a keyword: `\s+\w+` and, when `needParen` (the `def`/`class`
alternatives of `_CODE_LIKE_LINE`), the `\w+` must be followed by `(`. -/
def afterKw (cs : List Char) (needParen : Bool) : Bool :=
  match cs with
  | [] => false
  | c :: rest =>
    if isPyWs c then
      match rest.dropWhile isPyWs with
      | [] => false
      | d :: rest2 =>
        isWordChar d &&
          (!needParen ||
            (match rest2.dropWhile isWordChar with
             | '(' :: _ => true
             | _ => false))
    else false

/-- The apostrophe character (for the `'''` docstring alternative). -/
def squote : Char := Char.ofNat 39

/-- `_CODE_LIKE_LINE.search ln`: the line starts (after optional
whitespace) like `from X` / `import X` / `def f(` / `class C(` / a `#`
comment / a `\"\"\"` or `'''` docstring. -/
def codeLikeLine (ln : List Char) : Bool :=
  let cs := ln.dropWhile isPyWs
  (match dropLit "from".data cs with
   | some r => afterKw r false
   | none => false) ||
  (match dropLit "import".data cs with
   | some r => afterKw r false
   | none => false) ||
  (match dropLit "def".data cs with
   | some r => afterKw r true
   | none => false) ||
  (match dropLit "class".data cs with
   | some r => afterKw r true
   | none => false) ||
  (match cs with
   | '#' :: _ => true
   | '"' :: '"' :: '"' :: _ => true
   | a :: b :: c :: _ => a = squote && b = squote && c = squote
   | _ => false)

/-- `"\n".join` on character-list lines. -/
def joinNL (lines : List (List Char)) : List Char :=
  (lines.intersperse ['\n']).flatten

/-- `_extract_code`: strip, prefer the last fenced block (stripped),
otherwise from the first code-like line to the end (joined with `\n`,
stripped), otherwise the stripped text itself. -/
def extractCode (text : String) : String :=
  let t := pyStripList text.data
  match (findBlocks t).getLast? with
  | some b => ⟨pyStripList b⟩
  | none =>
    let lines := splitLines t
    match lines.findIdx? codeLikeLine with
    | some i => ⟨pyStripList (joinNL (lines.drop i))⟩
    | none => ⟨t⟩

example :
    extractCode "reasoning\n```python\nx = 1\n```\nmore\n```\ny = 2\n```" =
      "y = 2" := by decide
example :
    extractCode "Here is the code:\nimport json\nprint(1)" =
      "import json\nprint(1)" := by decide
example : extractCode "  just prose  " = "just prose" := by decide
example : extractCode "note\ndef f(x):\n  return x" = "def f(x):\n  return x" := by
  decide
example : extractCode "```PYTHON\nz\n```" = "z" := by decide
example : extractCode "def f :=" = "def f :=" := by decide

/-! ## Gemini Backend Adapter with prompt-keyed cache

`gemini_call_for_code` (src/llm_calls/new_gemini_llm.py, lines 113-234).
The disk cache maps `sha256(system_prompt + "\n---\n" + user_prompt)` to
the accepted code; the content hash is modelled collision-free as the
`(system_prompt, user_prompt)` pair itself.  The network is an oracle
`net : Nat → Except GemError String` giving, for the `k`-th network call of
this invocation, either the reply text or the raised exception's parsed
`(status, message)` data. -/

/-- The best-effort `(status, message)` the except-block extracts from a
raised backend exception (lines 200-209). -/
structure GemError where
  status : Option Int
  msg : String
  deriving DecidableEq

/-- `_should_retry` (lines 94-107): retry on 429/5xx, on transport-layer or
unknown status, or on `internal`/`timeout` in the lower-cased message. -/
def shouldRetry (status : Option Int) (msg : String) : Bool :=
  (match status with
   | some s => s = 429 || s = 500 || s = 502 || s = 503 || s = 504 || s = 0
   | none => true) ||
  containsSub "internal" (pyLower msg) ||
  containsSub "timeout" (pyLower msg)

/-- The prompt-keyed code cache (`cache/code_cache.json`), modelled as an
association list from `(system_prompt, user_prompt)` to code text. -/
abbrev GemCache := List ((String × String) × String)

/-- `cache.get(key)` / `key in cache`. -/
def cacheLookup (c : GemCache) (k : String × String) : Option String :=
  match c with
  | [] => none
  | (k2, v) :: rest => if k2 = k then some v else cacheLookup rest k

/-- `cache[key] = code` followed by `_save_cache`. -/
def cacheInsert (c : GemCache) (k : String × String) (v : String) : GemCache :=
  (k, v) :: c

/-- Cache contents the program itself ever writes: a cached code text is
never the empty string (it was accepted only after a non-blank check). -/
def CacheWF (c : GemCache) : Prop :=
  ∀ kv ∈ c, kv.2 ≠ ""

/-- One attempt body (lines 153-197): on a reply, extract the code and
treat a blank extraction as the raised
`RuntimeError("Empty code block returned.")` (whose parsed status is
`None`); a raised exception passes through. -/
def gemAttempt (r : Except GemError String) : Except GemError String :=
  match r with
  | .ok text =>
    let codeOut := extractCode text
    if pyStrip codeOut = "" then .error ⟨none, "Empty code block returned."⟩
    else .ok codeOut
  | .error e => .error e

/-- `f"(model={model}) attempt {i}/{model_attempts}: {status} {msg}"`
(line 211), with Python printing `None` for a missing status. -/
def gemErrText (model : String) (i mAtt : Nat) (e : GemError) : String :=
  "(model=" ++ model ++ ") attempt " ++ toString i ++ "/" ++ toString mAtt ++
    ": " ++ (match e.status with
             | some s => toString s
             | none => "None") ++ " " ++ e.msg

/-- The inner `for i in range(1, model_attempts + 1)` loop for one model
(lines 152-223): `remaining` counts the attempts still available including
the current one (so the attempt number is `mAtt - remaining`, 1-based, and
`i < model_attempts` is `remaining ≥ 1` after the pattern).  Returns the
code on success, the updated `last_err`, and the number of network calls
consumed. -/
def gemInner (net : Nat → Except GemError String) (model : String) (mAtt : Nat) :
    Nat → Nat → Option String → Option String × Option String × Nat
  | 0, _, lastErr => (none, lastErr, 0)
  | remaining + 1, callIdx, lastErr =>
    match gemAttempt (net callIdx) with
    | .ok c => (some c, lastErr, 1)
    | .error e =>
      let le := some (gemErrText model (mAtt - remaining) mAtt e)
      if decide (1 ≤ remaining) && shouldRetry e.status e.msg then
        let r := gemInner net model mAtt remaining (callIdx + 1) le
        (r.1, r.2.1, r.2.2 + 1)
      else (none, le, 1)

/-- The outer `for model in MODEL_CHAIN` loop (lines 146-227):
`model_attempts = min(per_model_attempts, attempts_left)`, break when it is
zero; on failure subtract the full model budget and break when
`attempts_left` reaches zero. -/
def gemOuter (net : Nat → Except GemError String) (perModel : Nat) :
    List String → Nat → Nat → Option String →
    Option String × Option String × Nat
  | [], _, _, lastErr => (none, lastErr, 0)
  | model :: restModels, attemptsLeft, callIdx, lastErr =>
    let mAtt := min perModel attemptsLeft
    if mAtt = 0 then (none, lastErr, 0)
    else
      let r := gemInner net model mAtt mAtt callIdx lastErr
      match r.1 with
      | some c => (some c, r.2.1, r.2.2)
      | none =>
        let attemptsLeft2 := attemptsLeft - mAtt
        if attemptsLeft2 = 0 then (none, r.2.1, r.2.2)
        else
          let r2 := gemOuter net perModel restModels attemptsLeft2
            (callIdx + r.2.2) r.2.1
          (r2.1, r2.2.1, r2.2.2 + r.2.2)

/-- `MODEL_CHAIN` with the default environment. -/
def MODEL_CHAIN : List String := ["gemini-2.5-pro", "gemini-2.5-flash"]

/-- `f"Gemini API call failed: {last_err or 'no further details'}"`. -/
def gemFailText (lastErr : Option String) : String :=
  "Gemini API call failed: " ++
    (match lastErr with
     | some s => if s = "" then "no further details" else s
     | none => "no further details")

/-- `gemini_call_for_code`: optional cache hit at the start
(`if cached:` — a hit requires a truthy value), the retrying model loop, a
cache write on success when `prefer_cached`, the unconditional last-resort
`if key in cache` lookup, and otherwise the raised `RuntimeError`
(modelled as `.error`).  Returns the result, the cache afterwards, and the
number of network calls issued. -/
def geminiCallForCode (systemPrompt userPrompt : String) (preferCached : Bool)
    (totalAttempts perModel : Nat) (models : List String) (cache : GemCache)
    (net : Nat → Except GemError String) :
    Except String String × GemCache × Nat :=
  let key := (systemPrompt, userPrompt)
  let hit : Option String :=
    if preferCached then
      match cacheLookup cache key with
      | some v => if v = "" then none else some v
      | none => none
    else none
  match hit with
  | some v => (.ok v, cache, 0)
  | none =>
    let r := gemOuter net perModel models totalAttempts 0 none
    match r.1 with
    | some c =>
      (.ok c, (if preferCached then cacheInsert cache key c else cache), r.2.2)
    | none =>
      match cacheLookup cache key with
      | some v => (.ok v, cache, r.2.2)
      | none => (.error (gemFailText r.2.1), cache, r.2.2)

/-! ## Repair prompt construction

`_build_repair_prompt` (src/plan_execution.py, lines 178-207).  The
parenthesised expression assigned to `repair_user_prompt` ends with a
trailing comma, so it is a **1-tuple** whose sole element is the
concatenated prompt string.  `execute_plan_v1` (line 85 and onwards) passes
`str(user_repair_prompt)` — the Python `str`/`repr` of that tuple — to the
backends, so the transmitted prompt is the element wrapped in `('...',)`
with `repr` escaping applied. -/

/-- The double-quote character. -/
def dquote : Char := Char.ofNat 34

/-- The backslash character. -/
def bslash : Char := Char.ofNat 92

/-- Lower-case hex digit of a value below 16. -/
def hexDigit (n : Nat) : Char :=
  if n < 10 then Char.ofNat (48 + n) else Char.ofNat (87 + n)

/-- `repr` escaping of one character inside a Python string literal
delimited by `q`: backslash, the delimiter, `\n`, `\r`, `\t`, and other
ASCII control characters as `\xhh`; everything else verbatim. -/
def pyReprChar (q c : Char) : List Char :=
  if c = bslash then [bslash, bslash]
  else if c = q then [bslash, q]
  else if c = '\n' then [bslash, 'n']
  else if c = '\r' then [bslash, 'r']
  else if c = '\t' then [bslash, 't']
  else if c.toNat < 32 || c.toNat = 127 then
    [bslash, 'x', hexDigit (c.toNat / 16), hexDigit (c.toNat % 16)]
  else [c]

/-- Python `repr` of a string: single-quoted, unless the string contains a
single quote and no double quote. -/
def pyStrRepr (s : String) : String :=
  let q : Char :=
    if s.data.contains squote && !s.data.contains dquote then dquote else squote
  ⟨q :: (s.data.flatMap (pyReprChar q) ++ [q])⟩

/-- A Python 1-tuple holding one string (the accidental shape of
`repair_user_prompt`). -/
structure PyStrTuple1 where
  elt : String
  deriving DecidableEq

/-- Python `str` of a 1-tuple of one string: `(` + `repr` + `,)`. -/
def pyStrOfTuple1 (t : PyStrTuple1) : String :=
  "(" ++ pyStrRepr t.elt ++ ",)"

/-- The string concatenated inside the `repair_user_prompt` expression
(lines 191-205), exactly as the adjacent literals join: base user prompt,
the failure notice, the previous code, the error text and the plan, with
the fixed instructions around them. -/
def repairUserPromptElement (baseUserPrompt prevCode error planStr : String) :
    String :=
  baseUserPrompt ++ "\n\n" ++
  "Your previous code failed.\n" ++
  "If you the answers are correct only the json formatting is incorrect then take those answers and format it as json as required in the questions" ++
  "----- PREVIOUS CODE -----\n" ++
  prevCode ++ "\n" ++
  "----- ERROR / OUTPUT -----\n" ++
  error ++ "\n" ++
  "----- PLAN -----\n" ++
  planStr ++ "\n" ++
  "Please fix the issues and return only working Python code. " ++
  "Ensure the script ends with:\n" ++
  "import json\nprint(json.dumps(result))" ++
  "Ensure that you do not create a dummy data"

/-- `repair_system_prompt` (line 190); `pmSystem` is the system prompt the
`PromptManager` recomputes for the plan (the `system_prompt` parameter is
shadowed by it). -/
def repairSystemPrompt (pmSystem : String) : String :=
  pyStrip pmSystem ++
    "\n\nIMPORTANT: Always print json.dumps(result).\n- Never create dummy data for any type of source , try sourcing again if not executed the first time"

/-- `_build_repair_prompt`: the returned pair.  `pmSystem`/`pmUser` are the
opaque outputs of the `PromptManager` template for this plan, question and
file manifest. -/
def buildRepairPrompt (pmSystem pmUser prevCode error planStr : String) :
    String × PyStrTuple1 :=
  (repairSystemPrompt pmSystem,
   ⟨repairUserPromptElement pmUser prevCode error planStr⟩)

/-- The user prompt text `execute_plan_v1` actually hands to the backends
in a repair round: `str(user_repair_prompt)`. -/
def repairUserPromptPassed (pmUser prevCode error planStr : String) : String :=
  pyStrOfTuple1 (buildRepairPrompt "" pmUser prevCode error planStr).2

/-! ## Fixtures used by the witness statements -/

/-- A concrete `json.JSONDecodeError` message oracle. -/
def jeW : String → String := fun _ => "Expecting value"

/-- A concrete round of backend outcomes: Claude returns code, the others
raise. -/
def gensW : Nat → BackendTriple := fun _ => ⟨.ok "print(1)", .error (), .error ()⟩

/-- A concrete child-process oracle: exit 0 with non-JSON stdout. -/
def execW : Nat → String → ProcResult := fun _ _ => ⟨0, "notjson", ""⟩

/-- A concrete child-process oracle whose non-JSON stdout differs per
round, to distinguish the most recent error from the first one. -/
def execW4 : Nat → String → ProcResult :=
  fun k _ => ⟨0, if k = 0 then "bad0" else "bad1", ""⟩

/-- A concrete network oracle: every call replies with one fenced block. -/
def netW : Nat → Except GemError String := fun _ => .ok "```\ncode1\n```"

/-- A concrete network oracle: every call raises a non-retryable 400. -/
def netFailW : Nat → Except GemError String := fun _ => .error ⟨some 400, "bad"⟩

/-! # The claims -/

/-- Claim C1.  The claim states that `_run_and_validate_json` enforces
`timeout_seconds` as a hard wall-clock bound, returning a timed-out failure
on an infinite-loop script instead of blocking.  The source contradicts it:
the `subprocess.run` invocation it builds carries **no** timeout
(`subprocess.run` defaults to `timeout=None`), so the supervision layer
never interrupts the child and `subprocess.TimeoutExpired` can never be
raised; moreover, were that exception ever raised, its handler returns the
local `stdout`, unassigned on that path, so the handler itself would exit
by `NameError` rather than return a timed-out result. -/
theorem C1_subprocess_timeout_unbounded (pythonExe codePath : String)
    (timeoutSec : Nat) (jeMsg : String → String) (code tmpPath : String)
    (fs : List String) :
    (subprocessInvocation pythonExe codePath timeoutSec).timeout = none ∧
    (runAndValidateJson jeMsg code timeoutSec .timesOut fs tmpPath).1 =
      .raised :=
  ⟨rfl, rfl⟩

/-- Claim C2, counterexample.  The claim says a validation success returns
`output` equal to the **raw** stdout text.  For captured stdout `"1\n"`
(valid JSON after stripping, as the child's `print` always appends a
newline) the validator succeeds but returns the stripped text `"1"`, not
`"1\n"`. -/
theorem C2_counterexample_raw_stdout :
    (validateOutput (fun _ => "") ⟨0, "1\n", ""⟩).1 = true ∧
    (validateOutput (fun _ => "") ⟨0, "1\n", ""⟩).2.1 ≠ "1\n" := by
  decide

/-- Claim C2, amended.  `_run_and_validate_json` strips both captured
streams first; then, in order: non-zero exit fails with the stripped stderr
(or the generic message when it is empty); unparsable stripped stdout fails
with the parse diagnostic plus both streams; otherwise it succeeds with
output equal to the **stripped** stdout text.  It rejects stdout
`"42\nextra text"` and `""`, and accepts `"{\"a\": 1}"`, returning exactly
that literal string. -/
theorem C2_validator_rules (jeMsg : String → String) (p : ProcResult) :
    (p.returncode ≠ 0 →
      validateOutput jeMsg p =
        (false, pyStrip p.stdout,
          some (if pyStrip p.stderr = "" then nonZeroExitMsg
                else pyStrip p.stderr))) ∧
    (p.returncode = 0 → jsonValid (pyStrip p.stdout) = false →
      validateOutput jeMsg p =
        (false, pyStrip p.stdout,
          some (invalidJsonMsg jeMsg (pyStrip p.stdout) (pyStrip p.stderr)))) ∧
    (p.returncode = 0 → jsonValid (pyStrip p.stdout) = true →
      validateOutput jeMsg p = (true, pyStrip p.stdout, none)) ∧
    jsonValid (pyStrip "42\nextra text") = false ∧
    jsonValid (pyStrip "") = false ∧
    validateOutput jeMsg ⟨0, "\x7b\"a\": 1\x7d", ""⟩ = (true, "\x7b\"a\": 1\x7d", none) := by
  refine ⟨fun h => ?_, fun h0 hj => ?_, fun h0 hj => ?_, by decide, by decide, ?_⟩
  · simp [validateOutput, h]
  · simp [validateOutput, h0, hj]
  · simp [validateOutput, h0, hj]
  · have hj : jsonValid (pyStrip "\x7b\"a\": 1\x7d") = true := by decide
    have hs : pyStrip "\x7b\"a\": 1\x7d" = "\x7b\"a\": 1\x7d" := by decide
    simp [validateOutput, hj, hs]
    decide

/-- Claim C2, witness: the non-zero-exit rule at a concrete input, with
trailing-newline stderr stripped to `"err"`. -/
theorem C2_validator_rules_witness :
    validateOutput (fun _ => "") ⟨1, "out", "err\n"⟩ =
      (false, "out", some "err") := by
  have h := (C2_validator_rules (fun _ => "") ⟨1, "out", "err\n"⟩).1 (by decide)
  rw [h]; decide

/-- Claim C7.  On every exit path of `_run_and_validate_json` — normal
completion (any exit code or validation verdict), timeout, or a raised
exception — the `finally` block removes the transient code file, and no
other path is touched: the resulting filesystem is exactly the initial one
with the transient path absent. -/
theorem C7_transient_file_removed (jeMsg : String → String) (code : String)
    (timeoutSec : Nat) (behavior : ProcBehavior) (fs : List String)
    (tmpPath : String) :
    tmpPath ∉ (runAndValidateJson jeMsg code timeoutSec behavior fs tmpPath).2 ∧
    (runAndValidateJson jeMsg code timeoutSec behavior fs tmpPath).2 =
      fs.filter (fun p => p ≠ tmpPath) := by
  cases behavior <;>
    refine ⟨fun hmem => ?_, by simp [runAndValidateJson]⟩ <;>
    · simp only [runAndValidateJson, List.mem_filter] at hmem
      exact (by simpa using hmem.2 : tmpPath ≠ tmpPath) rfl

/-- Claim C9.  If `"s3://"` occurs case-insensitively in the question text
or in the JSON serialisation of the plan, `execute_plan_v1` overwrites the
caller-supplied `max_retries` with 8, so the outcome is independent of the
requested repair bound. -/
theorem C9_s3_budget_override (jeMsg : String → String)
    (gens : Nat → BackendTriple) (execOf : Nat → String → ProcResult)
    (questions planJson : String) (mr mr2 : Nat)
    (h : s3Present questions planJson = true) :
    effectiveMaxRetries questions planJson mr = 8 ∧
    executePlanV1 jeMsg gens execOf questions planJson mr =
      executePlanV1 jeMsg gens execOf questions planJson mr2 := by
  refine ⟨by simp [effectiveMaxRetries, h], ?_⟩
  simp [executePlanV1, effectiveMaxRetries, h]

/-- Claim C9, witness: an upper-case `S3://` URI in the question forces the
budget to 8 and makes a requested budget of 3 and of 0 indistinguishable. -/
theorem C9_s3_budget_override_witness :
    effectiveMaxRetries "fetch S3://bucket/key" "{}" 3 = 8 ∧
    executePlanV1 jeW gensW execW "fetch S3://bucket/key" "{}" 3 =
      executePlanV1 jeW gensW execW "fetch S3://bucket/key" "{}" 0 :=
  C9_s3_budget_override jeW gensW execW "fetch S3://bucket/key" "{}" 3 0
    (by decide)

/-- Claim C3.  The fallback chain of `execute_plan_v1` is strictly
Claude → OpenAI → Gemini: OpenAI is invoked exactly when Claude raised or
returned no usable (non-empty) code, Gemini exactly when both did; the
moment a backend returns usable code that code is the result and no later
backend is consulted; and a chain pass ends in the aggregated failure only
when Claude and OpenAI failed and Gemini raised. -/
theorem C3_provider_chain_order (t : BackendTriple) :
    ((runChain t).openaiCalled = falsy t.claude) ∧
    ((runChain t).geminiCalled = (falsy t.claude && falsy t.openai)) ∧
    (∀ s, t.claude = .ok s → s ≠ "" → runChain t = ⟨.ok s, false, false⟩) ∧
    (∀ s, falsy t.claude = true → t.openai = .ok s → s ≠ "" →
      runChain t = ⟨.ok s, true, false⟩) ∧
    ((runChain t).code = .error () →
      falsy t.claude = true ∧ falsy t.openai = true ∧ t.gemini = .error ()) := by
  refine ⟨?_, ?_, ?_, ?_, ?_⟩
  · by_cases hc : falsy t.claude
    · by_cases ho : falsy t.openai <;> simp [runChain, hc, ho]
    · simp [runChain, hc]
  · by_cases hc : falsy t.claude
    · by_cases ho : falsy t.openai <;> simp [runChain, hc, ho]
    · simp [runChain, hc]
  · intro s hcs hs
    have hc : falsy t.claude = false := by
      rw [hcs]; simp [falsy, hs]
    unfold runChain
    rw [if_pos hc, hcs]
  · intro s hc hos hs
    have ho : falsy t.openai = false := by
      rw [hos]; simp [falsy, hs]
    unfold runChain
    rw [if_neg (by simp [hc]), if_pos ho, hos]
  · intro hcode
    by_cases hc : falsy t.claude = true
    · by_cases ho : falsy t.openai = true
      · have hrun : runChain t = ⟨t.gemini, true, true⟩ := by
          simp [runChain, hc, ho]
        rw [hrun] at hcode
        refine ⟨hc, ho, ?_⟩
        cases hgg : t.gemini with
        | error u => cases u; rfl
        | ok s => rw [hgg] at hcode; cases hcode
      · exfalso
        have hrun : runChain t = ⟨t.openai, true, false⟩ := by
          simp [runChain, hc, ho]
        rw [hrun] at hcode
        cases hoo : t.openai with
        | error u => exact ho (by simp [falsy, hoo])
        | ok s => rw [hoo] at hcode; cases hcode
    · exfalso
      have hrun : runChain t = ⟨t.claude, false, false⟩ := by
        simp [runChain, hc]
      rw [hrun] at hcode
      cases hcc : t.claude with
      | error u => exact hc (by simp [falsy, hcc])
      | ok s => rw [hcc] at hcode; cases hcode

/-- Claim C3, witness: Claude returning non-empty code short-circuits the
chain. -/
theorem C3_provider_chain_order_witness :
    runChain ⟨.ok "print(1)", .error (), .error ()⟩ =
      ⟨.ok "print(1)", false, false⟩ :=
  (C3_provider_chain_order ⟨.ok "print(1)", .error (), .error ()⟩).2.2.1
    "print(1)" rfl (by decide)

/-- If every repair round's chain pass either loses (the `continue` path)
or yields code that fails validation, the retry loop exhausts its budget
and returns the most recent error as a value. -/
theorem executePlanLoop_exhausted (jeMsg : String → String)
    (gens : Nat → BackendTriple) (execOf : Nat → String → ProcResult) :
    ∀ budget round err calls,
      (∀ k, k < budget → ∀ c, (runChain (gens (round + k))).code = .ok c →
        (validateOutput jeMsg (execOf (round + k) c)).1 = false) →
      (executePlanLoop jeMsg gens execOf round budget err calls).1 =
        .failureText (mostRecentError jeMsg gens execOf round budget err) := by
  intro budget
  induction budget with
  | zero =>
    intro round err calls _
    simp [executePlanLoop, mostRecentError]
  | succ r ih =>
    intro round err calls h
    have hshift : ∀ k, k < r → ∀ c,
        (runChain (gens (round + 1 + k))).code = .ok c →
        (validateOutput jeMsg (execOf (round + 1 + k) c)).1 = false := by
      intro k hk c hcc
      have he : round + 1 + k = round + (k + 1) := by omega
      rw [he] at hcc ⊢
      exact h (k + 1) (by omega) c hcc
    rw [executePlanLoop, mostRecentError]
    cases hc : (runChain (gens round)).code with
    | error u =>
      exact ih (round + 1) err _ hshift
    | ok code =>
      have hv : (validateOutput jeMsg (execOf round code)).1 = false := by
        have := h 0 (by omega) code (by simpa using hc)
        simpa using this
      simp only [hv, Bool.false_eq_true, if_false]
      exact ih (round + 1) _ _ hshift

/-- On runs where the child process always completes, the exception-aware
loop agrees with the completed-process loop (whatever the call
accumulator). -/
theorem executePlanLoopB_completes (jeMsg : String → String)
    (gens : Nat → BackendTriple) (execOf : Nat → String → ProcResult)
    (timeoutSec : Nat) :
    ∀ budget round err calls,
      executePlanLoopB jeMsg gens (fun k c => .completes (execOf k c))
          timeoutSec round budget err =
        .ret (executePlanLoop jeMsg gens execOf round budget err calls).1 := by
  intro budget
  induction budget with
  | zero => intro round err calls; rfl
  | succ r ih =>
    intro round err calls
    rw [executePlanLoopB, executePlanLoop]
    cases hc : (runChain (gens round)).code with
    | error u => exact ih (round + 1) err _
    | ok code =>
      cases hv : (validateOutput jeMsg (execOf round code)).1 with
      | true => simp [runAndValidateJson, hv]
      | false =>
        simp only [runAndValidateJson, hv, Bool.false_eq_true, if_false]
        exact ih (round + 1) _ _

/-- On runs where the child process always completes, the exception-aware
model of `execute_plan_v1` agrees with the completed-process model: the two
embeddings are the same function read at different fidelity. -/
theorem executePlanCoreB_completes (jeMsg : String → String)
    (gens : Nat → BackendTriple) (execOf : Nat → String → ProcResult)
    (timeoutSec maxRetries : Nat) :
    executePlanCoreB jeMsg gens (fun k c => .completes (execOf k c))
        timeoutSec maxRetries =
      .ret (executePlanCore jeMsg gens execOf maxRetries).1 := by
  unfold executePlanCoreB executePlanCore
  cases hc : (runChain (gens 0)).code with
  | error u => simp only [hc]
  | ok code =>
    simp only [hc]
    cases hv : (validateOutput jeMsg (execOf 0 code)).1 with
    | true => simp [runAndValidateJson, hv]
    | false =>
      simp only [runAndValidateJson, hv, Bool.false_eq_true, if_false]
      exact executePlanLoopB_completes jeMsg gens execOf timeoutSec
        maxRetries 1 _ _

/-- Claim C4, counterexample.  The claim's final clause says the system
never lets a backend or execution fault propagate as an unhandled exception
to the caller.  But `execute_plan_v1` calls `_run_and_validate_json`
unguarded (lines 68 and 112), and inside the executor only
`subprocess.TimeoutExpired` is caught — so when the execution step raises
anything else (e.g. an `OSError` from spawning the child), the exception
escapes `execute_plan_v1`: with code generated and the executor raising,
the run exits `raised` instead of returning a value. -/
theorem C4_counterexample_executor_exception :
    executePlanCoreB jeW gensW (fun _ _ => .raises) 300 3 = .raised := by
  decide

/-- Claim C4, amended.  Backend faults are always absorbed (every backend
call is guarded, and an exhausted run ends in a returned value): whenever
the initial code fails validation and every repair round's chain pass
either raises or yields code that again fails validation, the run returns
the most recent error text as the `failureText` value; in particular with
`max_repair_rounds = 0` it returns the original validation error and
performs zero backend calls beyond the initial chain pass.  The claim's
blanket no-unhandled-exception clause, however, does not extend to
execution faults: an executor exception other than
`subprocess.TimeoutExpired` propagates to the caller (see the
counterexample). -/
theorem C4_repair_budget_exhausted (jeMsg : String → String)
    (gens : Nat → BackendTriple) (execOf : Nat → String → ProcResult)
    (maxRetries : Nat) (code out err : String)
    (h1 : (runChain (gens 0)).code = .ok code)
    (h2 : validateOutput jeMsg (execOf 0 code) = (false, out, some err))
    (h3 : ∀ k, k < maxRetries → ∀ c, (runChain (gens (1 + k))).code = .ok c →
      (validateOutput jeMsg (execOf (1 + k) c)).1 = false) :
    (executePlanCore jeMsg gens execOf maxRetries).1 =
      .failureText (mostRecentError jeMsg gens execOf 1 maxRetries (some err)) ∧
    executePlanCore jeMsg gens execOf 0 =
      (.failureText (some err), chainCalls (gens 0)) := by
  constructor
  · have hloop := executePlanLoop_exhausted jeMsg gens execOf maxRetries 1
      (some err) (chainCalls (gens 0)) h3
    simp only [executePlanCore, h1, h2]
    simpa using hloop
  · simp only [executePlanCore, h1, h2, executePlanLoop]
    simp

/-- Claim C4, witness: budget 1, both rounds produce code whose output
fails validation with different diagnostics, and the run returns the
second (most recent) error as a value. -/
theorem C4_repair_budget_exhausted_witness :
    (executePlanCore jeW gensW execW4 1).1 =
      .failureText
        (some "Invalid JSON output: Expecting value\nSTDOUT:\nbad1\nSTDERR:\n") := by
  have h := C4_repair_budget_exhausted jeW gensW execW4 1 "print(1)" "bad0"
    "Invalid JSON output: Expecting value\nSTDOUT:\nbad0\nSTDERR:\n"
    (by decide) (by decide) ?h3
  · rw [h.1]; decide
  case h3 =>
    intro k hk c hcc
    have hk0 : k = 0 := by omega
    subst hk0
    rw [show (runChain (gensW (1 + 0))).code = Except.ok "print(1)" from
      by decide] at hcc
    injection hcc with hcc2
    subst hcc2
    decide

/-- Claim C5.  `_extract_code` is total (a Lean function): when the
stripped text has fenced blocks it returns the last one, stripped; when it
has none but some line is code-like it returns from the first such line to
the end, joined with newlines and stripped; otherwise it returns the
stripped text unchanged. -/
theorem C5_code_extractor (text : String) :
    (∀ b, (findBlocks (pyStripList text.data)).getLast? = some b →
      extractCode text = ⟨pyStripList b⟩) ∧
    (findBlocks (pyStripList text.data) = [] →
      ∀ i, (splitLines (pyStripList text.data)).findIdx? codeLikeLine = some i →
        extractCode text =
          ⟨pyStripList (joinNL ((splitLines (pyStripList text.data)).drop i))⟩) ∧
    (findBlocks (pyStripList text.data) = [] →
      (splitLines (pyStripList text.data)).findIdx? codeLikeLine = none →
      extractCode text = ⟨pyStripList text.data⟩) := by
  refine ⟨fun b hb => ?_, fun hnil i hi => ?_, fun hnil hnone => ?_⟩
  · simp [extractCode, hb]
  · simp [extractCode, hnil, hi]
  · simp [extractCode, hnil, hnone]

/-- Claim C5, witness: no fenced block, first code-like line is the
`import`, and the extractor keeps everything from it on. -/
theorem C5_code_extractor_witness :
    extractCode "preamble\nimport os\nx" = "import os\nx" := by
  have h := (C5_code_extractor "preamble\nimport os\nx").2.1 (by decide) 1
    (by decide)
  rw [h]; decide

/-- An accepted attempt only ever returns code that is non-blank: the
source raises on `not code_out.strip()`. -/
theorem gemAttempt_ok_nonblank {r : Except GemError String} {c : String}
    (h : gemAttempt r = .ok c) : pyStrip c ≠ "" := by
  cases r with
  | error e => simp [gemAttempt] at h
  | ok text =>
    simp only [gemAttempt] at h
    by_cases hs : pyStrip (extractCode text) = ""
    · rw [if_pos hs] at h; cases h
    · rw [if_neg hs] at h
      cases h
      exact hs

/-- A successful inner model loop returns non-blank code. -/
theorem gemInner_fst_some_nonblank (net : Nat → Except GemError String)
    (model : String) (mAtt : Nat) :
    ∀ remaining callIdx lastErr c,
      (gemInner net model mAtt remaining callIdx lastErr).1 = some c →
      pyStrip c ≠ "" := by
  intro remaining
  induction remaining with
  | zero => intro _ _ c h; simp [gemInner] at h
  | succ m ih =>
    intro callIdx lastErr c h
    rw [gemInner] at h
    cases hr : gemAttempt (net callIdx) with
    | ok c2 =>
      rw [hr] at h
      simp at h
      exact h ▸ gemAttempt_ok_nonblank hr
    | error e =>
      rw [hr] at h
      dsimp only at h
      by_cases hcond :
          (decide (1 ≤ m) && shouldRetry e.status e.msg) = true
      · rw [if_pos hcond] at h
        exact ih _ _ c h
      · rw [if_neg hcond] at h
        simp at h

/-- A successful outer model loop returns non-blank code. -/
theorem gemOuter_fst_some_nonblank (net : Nat → Except GemError String)
    (perModel : Nat) :
    ∀ models attemptsLeft callIdx lastErr c,
      (gemOuter net perModel models attemptsLeft callIdx lastErr).1 = some c →
      pyStrip c ≠ "" := by
  intro models
  induction models with
  | nil => intro _ _ _ c h; simp [gemOuter] at h
  | cons model rest ih =>
    intro attemptsLeft callIdx lastErr c h
    rw [gemOuter] at h
    by_cases hz : min perModel attemptsLeft = 0
    · rw [if_pos hz] at h; simp at h
    · rw [if_neg hz] at h
      dsimp only at h
      cases hr : (gemInner net model (min perModel attemptsLeft)
          (min perModel attemptsLeft) callIdx lastErr).1 with
      | some c2 =>
        rw [hr] at h
        simp at h
        exact h ▸ gemInner_fst_some_nonblank net model _ _ _ _ c2 hr
      | none =>
        rw [hr] at h
        by_cases hend : attemptsLeft - min perModel attemptsLeft = 0
        · rw [if_pos hend] at h; simp at h
        · rw [if_neg hend] at h
          exact ih _ _ _ c h

/-- A lookup in a well-formed cache never yields the empty string. -/
theorem cacheLookup_wf {c : GemCache} {k : String × String} {v : String}
    (hwf : CacheWF c) (h : cacheLookup c k = some v) : v ≠ "" := by
  induction c with
  | nil => simp [cacheLookup] at h
  | cons kv rest ih =>
    rw [cacheLookup] at h
    by_cases hk : kv.1 = k
    · rw [if_pos hk] at h
      cases h
      exact hwf kv (by simp)
    · rw [if_neg hk] at h
      exact ih (fun kv2 hm => hwf kv2 (by simp [hm])) h

/-- Inserting honours the lookup. -/
theorem cacheLookup_insert (c : GemCache) (k : String × String) (v : String) :
    cacheLookup (cacheInsert c k v) k = some v := by
  simp [cacheInsert, cacheLookup]

/-- A successful call with `prefer_cached=True` on a well-formed cache
leaves the returned code in the resulting cache under the prompt key, and
that code is non-empty. -/
theorem geminiCall_ok_lookup (sys user : String) (tA pM : Nat)
    (models : List String) (cache cache1 : GemCache)
    (net : Nat → Except GemError String) (c : String) (n : Nat)
    (hwf : CacheWF cache)
    (h : geminiCallForCode sys user true tA pM models cache net =
      (.ok c, cache1, n)) :
    cacheLookup cache1 (sys, user) = some c ∧ c ≠ "" := by
  simp only [geminiCallForCode] at h
  cases hl : cacheLookup cache (sys, user) with
  | some v =>
    have hv : v ≠ "" := cacheLookup_wf hwf hl
    rw [hl] at h
    simp [hv] at h
    obtain ⟨hcv, hcc, -⟩ := h
    subst hcv
    subst hcc
    exact ⟨hl, hv⟩
  | none =>
    rw [hl] at h
    simp only [if_true] at h
    cases hro : (gemOuter net pM models tA 0 none).1 with
    | some c2 =>
      rw [hro] at h
      simp at h
      obtain ⟨hcv, hcc, -⟩ := h
      subst hcv
      subst hcc
      refine ⟨cacheLookup_insert cache (sys, user) c2, fun hce => ?_⟩
      exact gemOuter_fst_some_nonblank net pM models tA 0 none c2 hro
        (by rw [hce]; rfl)
    | none =>
      rw [hro] at h
      simp at h

/-- Claim C6.  With caching enabled, a successful call leaves the cache so
that an immediately repeated call with the identical
`(system_prompt, user_prompt)` pair hits the cache at the start of the
function, issues **zero** network calls (whatever the network would have
answered), returns the identical code, and leaves the cache unchanged.
The well-formedness hypothesis states the invariant of the program's own
cache writes: no stored entry is the empty string. -/
theorem C6_cache_idempotent (sys user : String) (tA pM : Nat)
    (models : List String) (cache cache1 : GemCache)
    (net net2 : Nat → Except GemError String) (c : String) (n : Nat)
    (hwf : CacheWF cache)
    (h : geminiCallForCode sys user true tA pM models cache net =
      (.ok c, cache1, n)) :
    geminiCallForCode sys user true tA pM models cache1 net2 =
      (.ok c, cache1, 0) := by
  obtain ⟨hl, hc⟩ := geminiCall_ok_lookup sys user tA pM models cache cache1
    net c n hwf h
  simp [geminiCallForCode, hl, hc]

/-- Claim C6, witness: a first call that hits the network, caches
`"code1"`, and a second call that returns it from the cache with zero
network calls. -/
theorem C6_cache_idempotent_witness :
    geminiCallForCode "s" "u" true 6 3 MODEL_CHAIN
      [(("s", "u"), "code1")] netFailW = (.ok "code1", [(("s", "u"), "code1")], 0) := by
  exact C6_cache_idempotent "s" "u" 6 3 MODEL_CHAIN [] [(("s", "u"), "code1")]
    netW netFailW "code1" 1 (by simp [CacheWF]) (by decide)

/-- Claim C10.  When the model loop exhausts every network attempt,
`gemini_call_for_code` does a final unconditional cache lookup — also when
`prefer_cached=False` disabled the initial lookup — and returns the cached
entry when one exists for the prompt key; it raises the backend-exhausted
`RuntimeError` (modelled as the `.error` result) only when no entry
exists. -/
theorem C10_last_resort_cache (sys user : String) (tA pM : Nat)
    (models : List String) (cache : GemCache)
    (net : Nat → Except GemError String) (le : Option String) (n : Nat)
    (hfail : gemOuter net pM models tA 0 none = (none, le, n)) :
    (∀ v, cacheLookup cache (sys, user) = some v →
      geminiCallForCode sys user false tA pM models cache net =
        (.ok v, cache, n)) ∧
    (cacheLookup cache (sys, user) = none →
      geminiCallForCode sys user false tA pM models cache net =
        (.error (gemFailText le), cache, n)) := by
  constructor
  · intro v hv
    simp [geminiCallForCode, hfail, hv]
  · intro hv
    simp [geminiCallForCode, hfail, hv]

/-- Claim C10, witness: every network attempt raises a non-retryable 400,
yet the call returns the cached code (2 network calls were spent: one per
model of the chain). -/
theorem C10_last_resort_cache_witness :
    geminiCallForCode "s" "u" false 6 3 MODEL_CHAIN [(("s", "u"), "C")]
      netFailW = (.ok "C", [(("s", "u"), "C")], 2) := by
  exact (C10_last_resort_cache "s" "u" 6 3 MODEL_CHAIN [(("s", "u"), "C")]
    netFailW (some "(model=gemini-2.5-flash) attempt 1/3: 400 bad") 2
    (by decide)).1 "C" (by decide)

set_option maxRecDepth 40000 in
/-- Claim C8, counterexample.  The claim says every repair round's user
prompt embeds the complete previous code text.  Because the
`repair_user_prompt` expression ends in a trailing comma it is a 1-tuple,
and `execute_plan_v1` passes `str(user_repair_prompt)` to the backends, in
which `repr` escaping rewrites every newline of the previous code: for
previous code `"a\nb"` the prompt actually handed to the backends does not
contain `"a\nb"`. -/
theorem C8_counterexample_tuple_escaping :
    containsSub "a\nb" (repairUserPromptPassed "B" "a\nb" "E" "P") = false := by
  decide

/-- Claim C8, amended.  `_build_repair_prompt` concatenates one string
embedding, verbatim: the recomputed base user prompt, the statement that
the previous code failed, the complete previous code, the complete error
text, and the plan — but returns that string wrapped in a 1-element tuple,
and the loop re-enters generation with the Python `str()` of the tuple,
`'(' + repr(element) + ',)'`, in which each embedded piece appears
`repr`-escaped rather than verbatim. -/
theorem C8_repair_prompt_embedding
    (pmSystem pmUser prevCode error planStr : String) :
    (∃ l r, repairUserPromptElement pmUser prevCode error planStr =
      l ++ pmUser ++ r) ∧
    (∃ l r, repairUserPromptElement pmUser prevCode error planStr =
      l ++ "Your previous code failed.\n" ++ r) ∧
    (∃ l r, repairUserPromptElement pmUser prevCode error planStr =
      l ++ prevCode ++ r) ∧
    (∃ l r, repairUserPromptElement pmUser prevCode error planStr =
      l ++ error ++ r) ∧
    (∃ l r, repairUserPromptElement pmUser prevCode error planStr =
      l ++ planStr ++ r) ∧
    (buildRepairPrompt pmSystem pmUser prevCode error planStr).2 =
      ⟨repairUserPromptElement pmUser prevCode error planStr⟩ ∧
    repairUserPromptPassed pmUser prevCode error planStr =
      "(" ++ pyStrRepr (repairUserPromptElement pmUser prevCode error planStr)
        ++ ",)" := by
  refine ⟨⟨"", ?r1, ?_⟩, ⟨pmUser ++ "\n\n", ?r2, ?_⟩,
    ⟨pmUser ++ "\n\n" ++ "Your previous code failed.\n" ++
      "If you the answers are correct only the json formatting is incorrect then take those answers and format it as json as required in the questions" ++
      "----- PREVIOUS CODE -----\n", ?r3, ?_⟩,
    ⟨pmUser ++ "\n\n" ++ "Your previous code failed.\n" ++
      "If you the answers are correct only the json formatting is incorrect then take those answers and format it as json as required in the questions" ++
      "----- PREVIOUS CODE -----\n" ++ prevCode ++ "\n" ++
      "----- ERROR / OUTPUT -----\n", ?r4, ?_⟩,
    ⟨pmUser ++ "\n\n" ++ "Your previous code failed.\n" ++
      "If you the answers are correct only the json formatting is incorrect then take those answers and format it as json as required in the questions" ++
      "----- PREVIOUS CODE -----\n" ++ prevCode ++ "\n" ++
      "----- ERROR / OUTPUT -----\n" ++ error ++ "\n" ++
      "----- PLAN -----\n", ?r5, ?_⟩, rfl, rfl⟩
  case r1 => exact "\n\n" ++ "Your previous code failed.\n" ++
    "If you the answers are correct only the json formatting is incorrect then take those answers and format it as json as required in the questions" ++
    "----- PREVIOUS CODE -----\n" ++ prevCode ++ "\n" ++
    "----- ERROR / OUTPUT -----\n" ++ error ++ "\n" ++
    "----- PLAN -----\n" ++ planStr ++ "\n" ++
    "Please fix the issues and return only working Python code. " ++
    "Ensure the script ends with:\n" ++
    "import json\nprint(json.dumps(result))" ++
    "Ensure that you do not create a dummy data"
  case r2 => exact
    "If you the answers are correct only the json formatting is incorrect then take those answers and format it as json as required in the questions" ++
    "----- PREVIOUS CODE -----\n" ++ prevCode ++ "\n" ++
    "----- ERROR / OUTPUT -----\n" ++ error ++ "\n" ++
    "----- PLAN -----\n" ++ planStr ++ "\n" ++
    "Please fix the issues and return only working Python code. " ++
    "Ensure the script ends with:\n" ++
    "import json\nprint(json.dumps(result))" ++
    "Ensure that you do not create a dummy data"
  case r3 => exact "\n" ++
    "----- ERROR / OUTPUT -----\n" ++ error ++ "\n" ++
    "----- PLAN -----\n" ++ planStr ++ "\n" ++
    "Please fix the issues and return only working Python code. " ++
    "Ensure the script ends with:\n" ++
    "import json\nprint(json.dumps(result))" ++
    "Ensure that you do not create a dummy data"
  case r4 => exact "\n" ++
    "----- PLAN -----\n" ++ planStr ++ "\n" ++
    "Please fix the issues and return only working Python code. " ++
    "Ensure the script ends with:\n" ++
    "import json\nprint(json.dumps(result))" ++
    "Ensure that you do not create a dummy data"
  case r5 => exact "\n" ++
    "Please fix the issues and return only working Python code. " ++
    "Ensure the script ends with:\n" ++
    "import json\nprint(json.dumps(result))" ++
    "Ensure that you do not create a dummy data"
  all_goals simp only [repairUserPromptElement, String.append_assoc]
  rfl

end DataAnalystAgent
